import Mathlib

/-!
Verification of the gift-card chat backend (amazon-pay-bot).

The repository contains four variants of the same Express backend:
  * `src/backend/server.js` (embedded below in namespace `S0`): the simple
    personal-purchase flow; the greeting is honoured only at the `idle` stage.
  * three concatenated variants in `src/unnamed/part_000`, which all begin the
    /chat handler with a global restart guard (a greeting from any stage resets
    the session to the `awaitStart` welcome state with an empty draft).
    The second variant (budget-quotation business flow, 2 percent discount,
    bizFinal redemption-check limit) is embedded in namespace `V2`.
    The third variant adds GSTIN verification (1 percent discount); its
    `bizVerification` and `bizNeedsDelivery` stage branches are embedded in
    namespace `V3`.

Modelling conventions, uniform across the file:
  * the session store and HTTP wiring are outside the embedding; a step
    function takes the session record (stage string plus draft) and the
    trimmed user message (the handler computes
    `userMessage = message.trim()` once at entry) and returns the updated
    session plus the reply;
  * random tokens (crypto.randomBytes link and id suffixes) are passed in as
    explicit string parameters;
  * JS object fields that may be `undefined` are modelled with `Option`;
    string interpolation of `undefined` renders as "undefined" as in JS;
  * JS exceptions from property access on `undefined` (possible only on
    states unreachable along the flow) hit the catch-all of the handler,
    which replies with a fixed apology and leaves the session unchanged;
    this is modelled by `errorReply` results;
  * `Math.round(x * 0.02)` and `Math.round(x * 0.01)` on integral x are
    modelled as exact half-up rounding of x/50 and x/100; for the integer
    magnitudes representable in the flow the double computation agrees;
  * the `ui` hints sent to the frontend are dropped in `S0` and `V2` (no
    claim consumes them) and kept as their `kind` string in `V3`;
  * reply texts are reproduced from the source up to emoji and the JSON
    pretty-printing of the receipt, which is abstracted by `receiptText`.
-/

namespace Js

/-- The JS \s class restricted to the ASCII whitespace characters. -/
def isSpaceChar (c : Char) : Bool :=
  c = ' ' || c = '\t' || c = '\n' || c = '\x0d' || c = '\x0b' || c = '\x0c'

/-- The JS \w class: ASCII letters, digits and underscore. -/
def isWordChar (c : Char) : Bool :=
  c.isAlphanum || c = '_'

/-- Embedding of String.prototype.toLowerCase (ASCII range). -/
def lowerStr (s : String) : String := String.mk (s.data.map Char.toLower)

/-- Embedding of String.prototype.trim (the whitespace set of isSpaceChar). -/
def jsTrim (s : String) : String :=
  String.mk (((s.data.dropWhile isSpaceChar).reverse.dropWhile isSpaceChar).reverse)

/-- Split on a separator character, keeping empty parts
(String.prototype.split with a one-character separator). -/
def splitOnCharAux (sep : Char) : List Char → List Char → List (List Char)
  | [], acc => [acc.reverse]
  | c :: cs, acc =>
    if c = sep then acc.reverse :: splitOnCharAux sep cs []
    else splitOnCharAux sep cs (c :: acc)

/-- String.prototype.split with a one-character separator. -/
def splitChar (sep : Char) (s : String) : List String :=
  (splitOnCharAux sep s.data []).map String.mk

/-- Is the first list a prefix of the second (char lists). -/
def isPrefixL : List Char → List Char → Bool
  | [], _ => true
  | _ :: _, [] => false
  | a :: as, b :: bs => a = b && isPrefixL as bs

/-- String.prototype.startsWith. -/
def startsWithStr (p s : String) : Bool := isPrefixL p.data s.data

/-- String.prototype.endsWith. -/
def endsWithStr (p s : String) : Bool := isPrefixL p.data.reverse s.data.reverse

/-- Does the needle occur as a contiguous sublist of the haystack
(String.prototype.includes). -/
def containsSub (needle : List Char) : List Char → Bool
  | [] => needle.isEmpty
  | c :: cs => isPrefixL needle (c :: cs) || containsSub needle cs

/-- String.prototype.includes on strings. -/
def includesStr (needle s : String) : Bool := containsSub needle.data s.data

/-- Does a whole-word occurrence of w start right here, given the previous
character (regex word boundary on both sides). -/
def wordAt (w : List Char) (prev : Option Char) (cs : List Char) : Bool :=
  (match prev with | none => true | some c => !(isWordChar c)) &&
  isPrefixL w cs &&
  (match cs.drop w.length with | [] => true | c :: _ => !(isWordChar c))

/-- Does w occur somewhere in the list as a whole word. -/
def containsWordFrom (w : List Char) (prev : Option Char) : List Char → Bool
  | [] => wordAt w prev []
  | c :: cs => wordAt w prev (c :: cs) || containsWordFrom w (some c) cs

/-- Embedding of the greeting test of the handlers:
regex (word boundary)(hi|hello|hey)(word boundary), case-insensitive. -/
def greetingHit (s : String) : Bool :=
  let cs := (lowerStr s).data
  containsWordFrom ['h', 'i'] none cs ||
  containsWordFrom ['h', 'e', 'l', 'l', 'o'] none cs ||
  containsWordFrom ['h', 'e', 'y'] none cs

/-- Numeric value of a list of decimal digit characters. -/
def digitsVal (ds : List Char) : Nat :=
  ds.foldl (fun n c => n * 10 + (c.toNat - '0'.toNat)) 0

/-- Embedding of normalizeAmount: an empty message is null, all non-digit
characters are stripped, an empty remainder is null, otherwise parseInt. -/
def normalizeAmount (message : String) : Option Nat :=
  if message = "" then none
  else
    let digits := message.data.filter Char.isDigit
    if digits = [] then none
    else some (digitsVal digits)

/-- Embedding of isValidEmail, the regex
caret [non-space-non-at]+ at [non-space-non-at]+ dot [non-space-non-at]+ dollar
applied to the lowercased text.  Because the repeated class excludes the at
sign, the separator is forced to be the first at sign of the string; the rest
must be free of at signs and whitespace and contain a dot that is neither its
first nor its last character. -/
def isValidEmail (t : String) : Bool :=
  let cs := (lowerStr t).data
  let locl := cs.takeWhile (fun c => c ≠ '@')
  let rest := cs.dropWhile (fun c => c ≠ '@')
  match rest with
  | [] => false
  | _ :: dom =>
    !locl.isEmpty &&
    locl.all (fun c => !(isSpaceChar c)) &&
    dom.all (fun c => !(c = '@' || isSpaceChar c)) &&
    ((dom.drop 1).dropLast).contains '.'

/-- Strip whitespace and hyphens from a phone string
(String(x).replace of whitespace or hyphen, globally). -/
def stripPhone (s : String) : List Char :=
  s.data.filter (fun c => !(isSpaceChar c || c = '-'))

/-- The regex caret (plus? digit-ten-to-fifteen) dollar on an
already-stripped char list. -/
def phonePatternOk (cs : List Char) : Bool :=
  match cs with
  | '+' :: rest => rest.all Char.isDigit && 10 ≤ rest.length && rest.length ≤ 15
  | _ => cs.all Char.isDigit && 10 ≤ cs.length && cs.length ≤ 15

/-- Leading decimal digit run, or none if there is no leading digit. -/
def digitsPrefixVal (cs : List Char) : Option Nat :=
  let ds := cs.takeWhile Char.isDigit
  if ds.isEmpty then none else some (digitsVal ds)

/-- Embedding of parseInt(text, 10) on trimmed text: optional sign then the
leading digit run; NaN (none) when no digit follows. -/
def jsParseIntOpt (s : String) : Option Int :=
  match s.data with
  | '-' :: rest => (digitsPrefixVal rest).map (fun n => -(n : Int))
  | '+' :: rest => (digitsPrefixVal rest).map (fun n => (n : Int))
  | cs => (digitsPrefixVal cs).map (fun n => (n : Int))

/-- Consume a literal case-insensitively (literal given lowercased),
returning the rest of the input. -/
def ciPrefix (lit : List Char) (cs : List Char) : Option (List Char) :=
  match lit, cs with
  | [], rest => some rest
  | _ :: _, [] => none
  | l :: ls, c :: cs2 => if c.toLower = l then ciPrefix ls cs2 else none

/-- One or more whitespace characters, greedily. -/
def spaces1 (cs : List Char) : Option (List Char) :=
  match cs with
  | c :: rest => if isSpaceChar c then some (rest.dropWhile isSpaceChar) else none
  | [] => none

/-- Embedding of userMessage.match of the anchored, case-insensitive regex
"check, whitespace+, gc, whitespace*, capture(word chars+)"; returns the
captured identifier (in original case) when the regex matches. -/
def checkMatch (u : String) : Option String :=
  match ciPrefix ['c', 'h', 'e', 'c', 'k'] u.data with
  | none => none
  | some r1 =>
    match spaces1 r1 with
    | none => none
    | some r2 =>
      match ciPrefix ['g', 'c'] r2 with
      | none => none
      | some r3 =>
        let r4 := r3.dropWhile isSpaceChar
        let idc := r4.takeWhile isWordChar
        if idc.isEmpty then none else some (String.mk idc)

/-- Reversed-digit grouping helper for the Indian numbering format:
groups of two, each preceded (in reversed order: followed) by a comma. -/
def revPairs : List Char → List Char
  | [] => []
  | [a] => [',', a]
  | a :: b :: rest => ',' :: a :: b :: revPairs rest

/-- Decimal rendering of a natural number with en-IN digit grouping
(last group of three, then groups of two). -/
def formatNatIndian (n : Nat) : String :=
  let ds := (Nat.repr n).data
  if ds.length ≤ 3 then Nat.repr n
  else String.mk ((ds.reverse.take 3 ++ revPairs (ds.reverse.drop 3)).reverse)

/-- Embedding of formatCurrencyInr: Intl en-IN currency format with zero
fraction digits; a missing (NaN) amount renders as the zero amount. -/
def formatCurrencyInr (a : Option Nat) : String :=
  match a with
  | none => "₹0"
  | some n => "₹" ++ formatNatIndian n

/-- JS template interpolation of a possibly-undefined string. -/
def showOpt (o : Option String) : String := o.getD "undefined"

/-- JS (x or-else alternative) where an empty string is falsy: the pattern
used for the personal message display. -/
def msgOrNone (o : Option String) : String :=
  match o with
  | some m => if m = "" then "(none)" else m
  | none => "(none)"

/-- The fixed apology reply produced by the catch-all of the /chat handler. -/
def errorReply : String := "Something went wrong. Please try again."

/-- Embedding of generateGiftLink: fixed prefix plus the random token. -/
def giftLink (tok : String) : String := "https://mock.amazon/gift/" ++ tok

/-- The fixed prefix of every generated gift link. -/
def giftLinkPrefix : String := "https://mock.amazon/gift/"

end Js

namespace S0

open Js

/-- One gift-card template of getTemplates. -/
structure Template where
  id : String
  label : String
  imageUrl : String
deriving DecidableEq

/-- Embedding of getTemplates. -/
def getTemplates : List Template :=
  [ { id := "t1", label := "Happy Birthday", imageUrl := "/happy-bday.png" },
    { id := "t2", label := "Diwali", imageUrl := "/diwali.png" },
    { id := "t3", label := "Raksha Bandhan", imageUrl := "/rakshabandhan.png" },
    { id := "t4", label := "Sorry/Thank You", imageUrl := "/Sorry.png" } ]

/-- Embedding of findTemplateById. -/
def findTemplateById (templateId : String) : Option Template :=
  getTemplates.find? (fun x => x.id = templateId)

/-- The draft fields accumulated by the personal flow of server.js
(state.data); absent JS fields are none. -/
structure GiftData where
  occasion : Option String := none
  templateId : Option String := none
  amount : Option Nat := none
  recipientEmail : Option String := none
  personalMessage : Option String := none
deriving DecidableEq

/-- A session record of the store: current stage label plus draft. -/
structure Session where
  stage : String := "idle"
  data : GiftData := {}
deriving DecidableEq

/-- The receipt object built by the confirm branch (recipient flattened to
its email value; personalMessage or-else null). -/
structure Receipt where
  orderId : String
  occasion : Option String
  templateId : Option String
  amount : Option Nat
  recipientEmail : Option String
  personalMessage : Option String
  giftLink : String
deriving DecidableEq

/-- The observable outcome of one /chat turn: the updated session, the reply
text, and the receipt when one was produced (the code embeds it in the
reply; it is also carried structurally here). -/
structure ChatResult where
  session : Session
  reply : String
  receipt : Option Receipt := none
deriving DecidableEq

/-- The label shown for the chosen template in summaries. -/
def templateLabel (tid : Option String) : String :=
  match tid with
  | some t => match findTemplateById t with
    | some tpl => tpl.label
    | none => t
  | none => "undefined"

def welcomeReply : String :=
  "👋 Welcome to Amazon Pay Gift Cards – powered by Pine Labs!\n🎁 The simplest way to buy, gift, and share Amazon Pay Gift Cards – anytime, anywhere.\n\n✅ Instantly purchase gift cards\n✅ Share with friends & family on WhatsApp\n\nTap below to get started 👇\n\n🛒 Buy a Gift Card Now"

def sayHiReply : String := "Please say \x27hi\x27 to begin."

def occasionPrompt : String := "For what occasion you want to buy a gift card?"

def enterOccasionPrompt : String := "Please enter the occasion."

def templatePrompt : String := "Choose a gift card template."

def templateReprompt : String := "Please select a template."

def amountPrompt : String := "Select the amount or enter a custom amount."

def amountReprompt : String := "Please enter a valid amount."

def emailAsk : String :=
  "Who would you like to send it to? Please enter recipient email id."

def emailReprompt : String := "Please provide a valid email address."

def messageAsk : String := "Please enter your gift card message."

def confirmReprompt : String := "Please reply with \x27confirm\x27 or \x27cancel\x27."

def cancelledReply : String := "Cancelled. Say \x27hi\x27 to start again."

def completedReply : String := "Say \x27hi\x27 to start a new gift card."

def fallbackReply : String :=
  "Sorry, I didn\x27t understand that. Say \x27hi\x27 to start."

/-- The idle branch: the greeting advances to askOccasion (the draft is not
touched); anything else re-prompts for the greeting. -/
def idleStep (s : Session) (u : String) : ChatResult :=
  if greetingHit u then
    { session := { s with stage := "askOccasion" }, reply := welcomeReply }
  else
    { session := s, reply := sayHiReply }

/-- The known occasions of the askOccasion branch. -/
def knownOccasions : List String :=
  ["birthday", "thank you", "thankyou", "diwali", "other"]

/-- The value stored for a known occasion:
text.replace of "thankyou" by "thank you", which on the known values only
rewrites the literal "thankyou". -/
def fixThankyou (t : String) : String :=
  if t = "thankyou" then "thank you" else t

/-- The askOccasion branch. -/
def askOccasionStep (s : Session) (u : String) : ChatResult :=
  let text := lowerStr u
  if text = "" then
    { session := s, reply := occasionPrompt }
  else if text ∈ knownOccasions then
    if text = "other" then
      { session := { s with stage := "askOccasionCustom" }, reply := enterOccasionPrompt }
    else
      { session := { stage := "askTemplate",
                     data := { s.data with occasion := some (fixThankyou text) } },
        reply := templatePrompt }
  else
    { session := { stage := "askTemplate",
                   data := { s.data with occasion := some u } },
      reply := templatePrompt }

/-- The askOccasionCustom branch. -/
def askOccasionCustomStep (s : Session) (u : String) : ChatResult :=
  if u = "" then
    { session := s, reply := enterOccasionPrompt }
  else
    { session := { stage := "askTemplate",
                   data := { s.data with occasion := some u } },
      reply := templatePrompt }

/-- The template identifier extracted by the askTemplate branch: the part
after "template:" when that prefix is present, else the message itself when
it matches the regex caret t digit+ dollar; the empty string plays the role
of the falsy null/empty identifier. -/
def extractTemplateId (m : String) : String :=
  if startsWithStr "template:" m then (splitChar ':' m).getD 1 ""
  else match m.data with
    | 't' :: ds => if !ds.isEmpty && ds.all Char.isDigit then m else ""
    | _ => ""

/-- The askTemplate branch. -/
def askTemplateStep (s : Session) (u : String) : ChatResult :=
  let tid := extractTemplateId (lowerStr u)
  if tid = "" then
    { session := s, reply := templateReprompt }
  else
    { session := { stage := "askAmount",
                   data := { s.data with templateId := some tid } },
      reply := amountPrompt }

/-- The askAmount branch: reject when normalizeAmount is null or the value is
not positive, else store the amount. -/
def askAmountStep (s : Session) (u : String) : ChatResult :=
  match normalizeAmount u with
  | none => { session := s, reply := amountReprompt }
  | some v =>
    if v ≤ 0 then { session := s, reply := amountReprompt }
    else
      { session := { stage := "askRecipientEmail",
                     data := { s.data with amount := some v } },
        reply := emailAsk }

/-- The askRecipientEmail branch. -/
def askRecipientEmailStep (s : Session) (u : String) : ChatResult :=
  if isValidEmail u then
    { session := { stage := "askMessage",
                   data := { s.data with recipientEmail := some u } },
      reply := messageAsk }
  else
    { session := s, reply := emailReprompt }

/-- The confirmation summary shown by the askMessage branch. -/
def summaryReply (d : GiftData) : String :=
  "Here are the gift card details you have selected:\n- Occasion: " ++
  showOpt d.occasion ++ "\n- Template: " ++ templateLabel d.templateId ++
  "\n- Amount: " ++ formatCurrencyInr d.amount ++ "\n- Recipient Email: " ++
  showOpt d.recipientEmail ++ "\n- Message: " ++ msgOrNone d.personalMessage ++
  "\n\nType \x27confirm\x27 to place the order or \x27cancel\x27 to restart."

/-- The askMessage branch: every input (the empty string included) is stored
as the personal message and the session advances to the confirmation. -/
def askMessageStep (s : Session) (u : String) : ChatResult :=
  let d2 : GiftData := { s.data with personalMessage := some u }
  { session := { stage := "confirm", data := d2 }, reply := summaryReply d2 }

/-- Rendering of the receipt fields in the success reply; abstracts the
JSON.stringify pretty-printing of the receipt object (same information,
line-wise). -/
def receiptText (r : Receipt) : String :=
  "orderId: " ++ r.orderId ++ "\noccasion: " ++ showOpt r.occasion ++
  "\ntemplateId: " ++ showOpt r.templateId ++ "\namount: " ++
  (match r.amount with | some n => Nat.repr n | none => "undefined") ++
  "\ncurrency: INR\nrecipient email: " ++ showOpt r.recipientEmail ++
  "\npersonalMessage: " ++ (match r.personalMessage with | some m => m | none => "null") ++
  "\ngiftLink: " ++ r.giftLink

/-- The receipt built by the confirm branch; orderId is the first eight
characters of a freshly generated session id (random, passed in as otok). -/
def mkReceipt (d : GiftData) (tok otok : String) : Receipt :=
  { orderId := String.mk (otok.data.take 8),
    occasion := d.occasion,
    templateId := d.templateId,
    amount := d.amount,
    recipientEmail := d.recipientEmail,
    personalMessage := match d.personalMessage with
      | some m => if m = "" then none else some m
      | none => none,
    giftLink := Js.giftLink tok }

/-- The confirm branch: the literal confirm (after lowercasing) finalizes the
order, the literal cancel resets to idle with an empty draft, anything else
re-prompts in place. -/
def confirmStep (s : Session) (u tok otok : String) : ChatResult :=
  let text := lowerStr u
  if text = "confirm" then
    let r := mkReceipt s.data tok otok
    { session := { s with stage := "completed" },
      reply := "🎉 Success! Your gift card is ready.\nGift link: " ++
        Js.giftLink tok ++ ("\n\nDetails:\n" ++ receiptText r),
      receipt := some r }
  else if text = "cancel" then
    { session := { stage := "idle", data := {} }, reply := cancelledReply }
  else
    { session := s, reply := confirmReprompt }

/-- The completed branch: any input restarts. -/
def completedStep (_s : Session) : ChatResult :=
  { session := { stage := "idle", data := {} }, reply := completedReply }

/-- Embedding of the /chat handler of src/backend/server.js on the trimmed
user message; tok and otok are the random tokens drawn for the gift link and
the order id of the confirm branch. -/
def chat (s : Session) (u tok otok : String) : ChatResult :=
  match s.stage with
  | "idle" => idleStep s u
  | "askOccasion" => askOccasionStep s u
  | "askOccasionCustom" => askOccasionCustomStep s u
  | "askTemplate" => askTemplateStep s u
  | "askAmount" => askAmountStep s u
  | "askRecipientEmail" => askRecipientEmailStep s u
  | "askMessage" => askMessageStep s u
  | "confirm" => confirmStep s u tok otok
  | "completed" => completedStep s
  | _ => { session := s, reply := fallbackReply }

end S0

namespace V2

open Js

/-! Embedding of the second variant in src/unnamed/part_000 (the
budget-quotation business flow).  Its /chat handler begins with a global
restart guard: a greeting seen at any stage resets the session to the
awaitStart welcome state with an empty draft, before any per-stage logic
runs. -/

/-- The feedback object accumulated by the bizFeedback branch. -/
structure Feedback2 where
  rating : Option Nat := none
  comments : Option String := none
deriving DecidableEq

/-- The quotation computed by the bizDiscount branch. -/
structure Quote2 where
  count : Nat
  denom : Nat
  gross : Nat
  discount : Nat
  net : Nat
deriving DecidableEq

/-- The business sub-record state.data.biz of the second variant. -/
structure Biz2 where
  checksToday : Nat := 0
  name : Option String := none
  company : Option String := none
  email : Option String := none
  phone : Option String := none
  gstin : Option String := none
  requestId : Option String := none
  occasion : Option String := none
  denomination : Option Nat := none
  budget : Option Nat := none
  delivery : Option String := none
  quote : Option Quote2 := none
  feedback : Option Feedback2 := none
deriving DecidableEq

/-- The draft record state.data of the second variant: the personal-flow
fields plus buyerType and the business sub-record. -/
structure Data2 where
  buyerType : Option String := none
  occasion : Option String := none
  templateId : Option String := none
  amount : Option Nat := none
  recipientEmail : Option String := none
  personalMessage : Option String := none
  biz : Option Biz2 := none
deriving DecidableEq

/-- A session record of the second variant. -/
structure Session2 where
  stage : String := "idle"
  data : Data2 := {}
deriving DecidableEq

/-- The outcome of one /chat turn of the second variant. -/
structure Result2 where
  session : Session2
  reply : String
deriving DecidableEq

/-- The batch lead payload, format lead|name|company|email|phone|gstin. -/
structure Lead2 where
  name : String
  company : String
  email : String
  phone : String
  gstin : String
deriving DecidableEq

/-- Embedding of parseBatchLead of the second variant: null unless the
message (lowercased) starts with "lead|"; missing parts read as empty,
every part trimmed. -/
def parseBatchLead2 (message : String) : Option Lead2 :=
  if message = "" then none
  else if startsWithStr "lead|" (lowerStr message) then
    let parts := splitChar '|' message
    some { name := jsTrim (parts.getD 1 ""),
           company := jsTrim (parts.getD 2 ""),
           email := jsTrim (parts.getD 3 ""),
           phone := jsTrim (parts.getD 4 ""),
           gstin := jsTrim (parts.getD 5 "") }
  else none

/-- A JS exception caught by the handler: apology reply, session unchanged. -/
def err2 (s : Session2) : Result2 := { session := s, reply := errorReply }

def welcome2 : String :=
  "👋 Welcome to Amazon Pay Gift Cards – powered by Pine Labs!\n🎁 The simplest way to buy, gift, and share Amazon Pay Gift Cards – anytime, anywhere.\n\n✅ Instantly purchase gift cards\n✅ Share with friends & family on WhatsApp\n\nTap below to get started 👇\n\n🛒 Buy a Gift Card Now"

def buyerTypeAsk2 : String := "Are you buying for yourself or for business?"

def buyerTypeReprompt2 : String := "Please choose Personal/Self or Business."

def startedReply2 : String :=
  "✨ Great! Let’s get started. Please tell us who you’re buying for:\n\n1️⃣ For Myself / Friends & Family\n2️⃣ For Business / Employees / Clients\n\n👉 Just reply with 1 or 2 to continue."

def startReprompt2 : String := "Tap the button to begin: Buy a Gift Card"

def bizWelcomeReply2 : String :=
  "Would you like to explore gift card solutions for your business?"

def bizHowReply2 : String :=
  "We capture your requirements, verify eligibility for discounts, share a quotation and PI, then process payment and issue gift cards within agreed timelines."

def bizLeadForm2 : String := "Please share your business details"

def bizLeadInvalid2 : String := "Please provide valid Name, Company and Official Email."

def bizPhoneInvalid2 : String := "Please provide a valid phone number."

def bizOccasionAsk2 : String := "Choose a denomination:"

def bizDenomInvalid2 : String := "Please enter a valid denomination (₹)"

def bizDenomCustomAsk2 : String := "Enter custom denomination (₹):"

def bizBudgetAsk2 : String := "Estimated total budget (₹)?"

def bizBudgetInvalid2 : String := "Please enter a valid budget (₹)"

def bizDeliveryAsk2 : String := "Preferred delivery method?"

def bizEligibleReply2 : String :=
  "We offer up to 2% discount for verified businesses. Checking eligibility...\n\n✅ GSTIN check: Valid\n✅ Email check: Verified company domain\n\n🎉 You are eligible for a 2% business discount."

def bizEditReqReply2 : String := "Let’s update your requirements. Choose an occasion:"

def bizUploadAsk2 : String := "Please upload your Purchase Order (PO)."

def bizPOValidatedReply2 : String :=
  "✅ PO received and validated. You can now proceed with payment.\n\nPlease complete payment via the link below 👇\n[💳 Pay Now]\nPayment Options: UPI / NEFT / Netbanking\n\nFor assistance during payment, call 0124-6236000 (Mon–Fri, 10AM–6PM)."

def bizPIReprompt2 : String := "Download the PI and upload your PO to proceed."

def bizPaidReply2 : String :=
  "✅ Payment received. GST Invoice sent to your email & available here: [Download Invoice]"

def bizPaidReprompt2 : String := "Please confirm once payment is completed (type: paid)."

def bizIssuedReply2 : String :=
  "🎉 Your Amazon Pay Gift Cards have been issued!\nDelivery Method: Bulk CSV file sent to your email.\nSample card: XXXX-XXXX-5678 (₹1,000, Valid till Dec 2026)\n\nDownload full file securely: [Download GCs]"

def limitReply2 : String :=
  "⚠️ You’ve reached today’s limit of 5 redemption checks. For additional queries, please contact 0124-6236000."

def feedbackAsk2 : String :=
  "We’d love your feedback. Please rate 1-5 and share any comments."

def offersReply2 : String :=
  "Great! Early-bird offers for Diwali 2025 are available. Our team will reach out with details."

def finalMenuReply2 : String :=
  "🙏 Thank you for choosing Amazon Pay Gift Cards! Reply “offers” to explore festive offers or “feedback” to share feedback."

def feedbackCommentsAsk2 : String := "Thanks! Please share any comments (optional)."

def feedbackThanks2 : String := "🙏 Thanks for your feedback!"

/-- The idle branch of the second variant (its greeting test is shadowed by
the global restart guard but is kept as in the source). -/
def idle2 (s : Session2) (u : String) : Result2 :=
  if greetingHit u then
    { session := { s with stage := "askBuyerType" }, reply := buyerTypeAsk2 }
  else
    { session := s, reply := "Please say \x27hi\x27 to begin." }

/-- The askBuyerType branch: business starts the business flow with a fresh
biz record whose checksToday is zero; personal starts the personal flow. -/
def askBuyerType2 (s : Session2) (u : String) : Result2 :=
  let text := lowerStr u
  if text = "2" ∨ text = "business" then
    { session := { stage := "bizWelcome", data := { s.data with biz := some {} } },
      reply := bizWelcomeReply2 }
  else if text = "1" ∨ text = "personal" ∨ text = "self" then
    { session := { stage := "askOccasion", data := { s.data with buyerType := some "personal" } },
      reply := S0.occasionPrompt }
  else
    { session := s, reply := buyerTypeReprompt2 }

/-- The awaitStart branch. -/
def awaitStart2 (s : Session2) (u : String) : Result2 :=
  let text := lowerStr u
  if text = "start" ∨ includesStr "buy" text then
    { session := { s with stage := "askBuyerType" }, reply := startedReply2 }
  else
    { session := s, reply := startReprompt2 }

/-- The bizWelcome branch: "how" explains, anything else proceeds to the
lead-capture form. -/
def bizWelcome2 (s : Session2) (u : String) : Result2 :=
  let text := lowerStr u
  if text = "how" then
    { session := s, reply := bizHowReply2 }
  else
    { session := { s with stage := "bizLead" }, reply := bizLeadForm2 }

/-- The first word of the lead name, or-else "there". -/
def firstName2 (name : String) : String :=
  let fn := (splitChar ' ' name).getD 0 ""
  if fn = "" then "there" else fn

/-- The bizLead branch: parse the batch payload, validate name, company,
email and phone, then store the lead and advance to occasion selection. -/
def bizLead2 (s : Session2) (u tok : String) : Result2 :=
  match parseBatchLead2 u with
  | none => { session := s, reply := bizLeadForm2 }
  | some batch =>
    if batch.name = "" ∨ batch.company = "" ∨ isValidEmail batch.email = false then
      { session := s, reply := bizLeadInvalid2 }
    else if phonePatternOk (stripPhone batch.phone) = false then
      { session := s, reply := bizPhoneInvalid2 }
    else match s.data.biz with
    | none => err2 s
    | some b =>
      let rid := "GC" ++ tok
      let b2 : Biz2 :=
        { b with name := some batch.name, company := some batch.company,
                 email := some batch.email,
                 phone := some (String.mk (stripPhone batch.phone)),
                 gstin := some (if batch.gstin ≠ "" ∧ lowerStr batch.gstin ≠ "skip"
                                then batch.gstin else ""),
                 requestId := some rid }
      { session := { stage := "bizNeedsOccasion", data := { s.data with biz := some b2 } },
        reply := "✅ Thanks, " ++ firstName2 batch.name ++
          ". Your request has been logged with Request ID " ++ rid ++
          ".\n\nPlease help us with your requirement. Choose an occasion:" }

/-- The bizNeedsOccasion branch: any input is stored (lowercased). -/
def bizNeedsOccasion2 (s : Session2) (u : String) : Result2 :=
  match s.data.biz with
  | none => err2 s
  | some b =>
    { session := { stage := "bizNeedsDenomination",
                   data := { s.data with biz := some { b with occasion := some (lowerStr u) } } },
      reply := bizOccasionAsk2 }

/-- The bizNeedsDenomination branch. -/
def bizNeedsDenomination2 (s : Session2) (u : String) : Result2 :=
  let t := lowerStr u
  if t = "custom" then
    { session := { s with stage := "bizNeedsDenominationCustom" }, reply := bizDenomCustomAsk2 }
  else match normalizeAmount u with
  | none => { session := s, reply := bizDenomInvalid2 }
  | some a =>
    if a = 0 then { session := s, reply := bizDenomInvalid2 }
    else match s.data.biz with
    | none => err2 s
    | some b =>
      { session := { stage := "bizNeedsBudget",
                     data := { s.data with biz := some { b with denomination := some a } } },
        reply := bizBudgetAsk2 }

/-- The bizNeedsDenominationCustom branch. -/
def bizNeedsDenominationCustom2 (s : Session2) (u : String) : Result2 :=
  match normalizeAmount u with
  | none => { session := s, reply := bizDenomInvalid2 }
  | some a =>
    if a = 0 then { session := s, reply := bizDenomInvalid2 }
    else match s.data.biz with
    | none => err2 s
    | some b =>
      { session := { stage := "bizNeedsBudget",
                     data := { s.data with biz := some { b with denomination := some a } } },
        reply := bizBudgetAsk2 }

/-- The bizNeedsBudget branch. -/
def bizNeedsBudget2 (s : Session2) (u : String) : Result2 :=
  match normalizeAmount u with
  | none => { session := s, reply := bizBudgetInvalid2 }
  | some a =>
    if a = 0 then { session := s, reply := bizBudgetInvalid2 }
    else match s.data.biz with
    | none => err2 s
    | some b =>
      { session := { stage := "bizNeedsDelivery",
                     data := { s.data with biz := some { b with budget := some a } } },
        reply := bizDeliveryAsk2 }

/-- The bizNeedsDelivery branch of the second variant: any input is stored
(lowercased) as the delivery method. -/
def bizNeedsDelivery2 (s : Session2) (u : String) : Result2 :=
  match s.data.biz with
  | none => err2 s
  | some b =>
    { session := { stage := "bizDiscount",
                   data := { s.data with biz := some { b with delivery := some (lowerStr u) } } },
      reply := bizEligibleReply2 }

/-- The quotation text of the bizDiscount branch. -/
def quoteReply2 (q : Quote2) (delivery : Option String) : String :=
  "💰 Based on your inputs:\n\n• " ++ Nat.repr q.count ++ " gift cards @ " ++
  formatCurrencyInr (some q.denom) ++ " each = " ++ formatCurrencyInr (some q.gross) ++
  "\n• Business discount (2%): -" ++ formatCurrencyInr (some q.discount) ++
  "\n• Net Payable: " ++ formatCurrencyInr (some q.net) ++ "\n• Delivery: " ++
  (if delivery = some "bulk" then "Bulk CSV within 24 hrs" else "Direct SMS & Email") ++
  "\n• Platform fee: Waived\n\nWould you like us to generate a Proforma Invoice (PI)?"

/-- The bizDiscount branch: count = max(1, floor(budget / denomination)),
gross = denomination * count, discount = Math.round(gross * 0.02) (embedded
as exact half-up rounding of gross / 50), net = gross - discount.  Any input
proceeds.  When denomination or budget is unset the JS computation yields
NaN quantities; that path, unreachable along the flow (both fields are
stored positive), is modelled by the Nat defaults, division by zero giving
count 1 on an empty gross. -/
def bizDiscount2 (s : Session2) (_u : String) : Result2 :=
  match s.data.biz with
  | none => err2 s
  | some b =>
    let denom := b.denomination.getD 0
    let budget := b.budget.getD 0
    let count := max 1 (budget / denom)
    let gross := denom * count
    let discount := (2 * gross + 50) / 100
    let net := gross - discount
    let q : Quote2 := { count := count, denom := denom, gross := gross,
                        discount := discount, net := net }
    { session := { stage := "bizQuote",
                   data := { s.data with biz := some { b with quote := some q } } },
      reply := quoteReply2 q b.delivery }

/-- The bizQuote branch: "edit" loops back to the requirement capture,
anything else generates the proforma invoice (reading the stored quotation,
whose absence would be a JS exception). -/
def bizQuote2 (s : Session2) (u : String) : Result2 :=
  let t := lowerStr u
  if t = "edit" then
    { session := { s with stage := "bizNeedsOccasion" }, reply := bizEditReqReply2 }
  else match s.data.biz with
  | none => err2 s
  | some b =>
    match b.quote with
    | none => err2 s
    | some q =>
      { session := { s with stage := "bizPI" },
        reply := "📑 Proforma Invoice (PI) generated for Request ID " ++
          showOpt b.requestId ++ ".\n\n• Value: " ++ formatCurrencyInr (some q.net) ++
          " (after discount)\n• Validity: 7 working days\n\nSent to your email: " ++
          showOpt b.email ++ "\nPlease upload your Purchase Order (PO) here." }

/-- The bizPI branch. -/
def bizPI2 (s : Session2) (u : String) : Result2 :=
  let t := lowerStr u
  if t = "continue" ∨ t = "upload" ∨ t = "po" then
    { session := { s with stage := "bizPIUpload" }, reply := bizUploadAsk2 }
  else if includesStr "po_" t ∨ endsWithStr ".pdf" t then
    { session := { s with stage := "bizPOValidated" }, reply := bizPOValidatedReply2 }
  else
    { session := s, reply := bizPIReprompt2 }

/-- The bizPIUpload branch: any message counts as the PO upload. -/
def bizPIUpload2 (s : Session2) (_u : String) : Result2 :=
  { session := { s with stage := "bizPOValidated" }, reply := bizPOValidatedReply2 }

/-- The bizPOValidated branch. -/
def bizPOValidated2 (s : Session2) (u : String) : Result2 :=
  let t := lowerStr u
  if includesStr "paid" t ∨ includesStr "payment" t then
    { session := { s with stage := "bizIssued" }, reply := bizPaidReply2 }
  else
    { session := s, reply := bizPaidReprompt2 }

/-- The bizIssued branch: any input issues the cards. -/
def bizIssued2 (s : Session2) (_u : String) : Result2 :=
  { session := { s with stage := "bizFinal" }, reply := bizIssuedReply2 }

/-- The bizFinal branch: a redemption check succeeds and increments the
per-session counter while it is below five, is refused with the daily-limit
message once the counter has reached five, and non-check inputs leave the
counter alone ("feedback" moves to the feedback stage). -/
def bizFinal2 (s : Session2) (u : String) : Result2 :=
  match s.data.biz with
  | none => err2 s
  | some b =>
    match checkMatch u with
    | some id =>
      if 5 ≤ b.checksToday then
        { session := s, reply := limitReply2 }
      else
        { session := { s with data := { s.data with
                       biz := some { b with checksToday := b.checksToday + 1 } } },
          reply := "✅ Gift Card " ++ id ++ " → Unredeemed, Balance ₹1,000" }
    | none =>
      let t := lowerStr u
      if t = "feedback" then
        { session := { s with stage := "bizFeedback" }, reply := feedbackAsk2 }
      else if t = "offers" then
        { session := s, reply := offersReply2 }
      else
        { session := s, reply := finalMenuReply2 }

/-- The bizFeedback branch. -/
def bizFeedback2 (s : Session2) (u : String) : Result2 :=
  match s.data.biz with
  | none => err2 s
  | some b =>
    let fb := b.feedback.getD {}
    let ratingOpt := jsParseIntOpt u
    let ratingOk := fb.rating.isNone &&
      (match ratingOpt with
       | some r => decide (1 ≤ r) && decide (r ≤ 5)
       | none => false)
    if ratingOk then
      let fb1 : Feedback2 := { fb with rating := ratingOpt.map Int.toNat }
      { session := { s with data := { s.data with biz := some { b with feedback := some fb1 } } },
        reply := feedbackCommentsAsk2 }
    else
      let fb2 : Feedback2 := if u ≠ "" then { fb with comments := some u } else fb
      { session := { stage := "bizFinal",
                     data := { s.data with biz := some { b with feedback := some fb2 } } },
        reply := feedbackThanks2 }

/-- The askOccasion branch of the second variant (same logic as S0, on
Data2). -/
def askOccasion2 (s : Session2) (u : String) : Result2 :=
  let text := lowerStr u
  if text = "" then
    { session := s, reply := S0.occasionPrompt }
  else if text ∈ S0.knownOccasions then
    if text = "other" then
      { session := { s with stage := "askOccasionCustom" }, reply := S0.enterOccasionPrompt }
    else
      { session := { stage := "askTemplate",
                     data := { s.data with occasion := some (S0.fixThankyou text) } },
        reply := S0.templatePrompt }
  else
    { session := { stage := "askTemplate", data := { s.data with occasion := some u } },
      reply := S0.templatePrompt }

/-- The askOccasionCustom branch of the second variant. -/
def askOccasionCustom2 (s : Session2) (u : String) : Result2 :=
  if u = "" then
    { session := s, reply := S0.enterOccasionPrompt }
  else
    { session := { stage := "askTemplate", data := { s.data with occasion := some u } },
      reply := S0.templatePrompt }

/-- The askTemplate branch of the second variant. -/
def askTemplate2 (s : Session2) (u : String) : Result2 :=
  let tid := S0.extractTemplateId (lowerStr u)
  if tid = "" then
    { session := s, reply := S0.templateReprompt }
  else
    { session := { stage := "askAmount", data := { s.data with templateId := some tid } },
      reply := S0.amountPrompt }

/-- The askAmount branch of the second variant. -/
def askAmount2 (s : Session2) (u : String) : Result2 :=
  match normalizeAmount u with
  | none => { session := s, reply := S0.amountReprompt }
  | some v =>
    if v ≤ 0 then { session := s, reply := S0.amountReprompt }
    else
      { session := { stage := "askRecipientEmail",
                     data := { s.data with amount := some v } },
        reply := S0.emailAsk }

/-- The askRecipientEmail branch of the second variant. -/
def askRecipientEmail2 (s : Session2) (u : String) : Result2 :=
  if isValidEmail u then
    { session := { stage := "askMessage",
                   data := { s.data with recipientEmail := some u } },
      reply := S0.messageAsk }
  else
    { session := s, reply := S0.emailReprompt }

/-- The confirmation summary of the second variant. -/
def summaryReply2 (d : Data2) : String :=
  "Here are the gift card details you have selected:\n- Occasion: " ++
  showOpt d.occasion ++ "\n- Template: " ++ S0.templateLabel d.templateId ++
  "\n- Amount: " ++ formatCurrencyInr d.amount ++ "\n- Recipient Email: " ++
  showOpt d.recipientEmail ++ "\n- Message: " ++ msgOrNone d.personalMessage ++
  "\n\nType \x27confirm\x27 to place the order or \x27cancel\x27 to restart."

/-- The askMessage branch of the second variant. -/
def askMessage2 (s : Session2) (u : String) : Result2 :=
  let d2 : Data2 := { s.data with personalMessage := some u }
  { session := { stage := "confirm", data := d2 }, reply := summaryReply2 d2 }

/-- The confirm branch of the second variant (its success reply lists the
details line-wise instead of a JSON receipt). -/
def confirm2 (s : Session2) (u tok : String) : Result2 :=
  let text := lowerStr u
  if text = "confirm" then
    { session := { s with stage := "completed" },
      reply := "🎉 Success! Your gift card is sent on recipient email.\nGift link: " ++
        Js.giftLink tok ++ ("\n\nDetails:\n- Occasion: " ++ showOpt s.data.occasion ++
        "\n- Template: " ++ showOpt s.data.templateId ++ "\n- Amount: " ++
        formatCurrencyInr s.data.amount ++ "\n- Recipient: " ++
        showOpt s.data.recipientEmail ++ "\n- Message: " ++
        msgOrNone s.data.personalMessage) }
  else if text = "cancel" then
    { session := { stage := "idle", data := {} }, reply := S0.cancelledReply }
  else
    { session := s, reply := S0.confirmReprompt }

/-- The completed branch of the second variant. -/
def completed2 (_s : Session2) : Result2 :=
  { session := { stage := "idle", data := {} }, reply := S0.completedReply }

/-- Embedding of the /chat handler of the second variant on the trimmed user
message: the global restart guard first (any greeting resets the session to
the awaitStart welcome state with an empty draft), then the per-stage
dispatch; tok is the random token drawn by the turn. -/
def chatV2 (s : Session2) (u tok : String) : Result2 :=
  if greetingHit u then
    { session := { stage := "awaitStart", data := {} }, reply := welcome2 }
  else match s.stage with
  | "idle" => idle2 s u
  | "askBuyerType" => askBuyerType2 s u
  | "awaitStart" => awaitStart2 s u
  | "bizWelcome" => bizWelcome2 s u
  | "bizLead" => bizLead2 s u tok
  | "bizNeedsOccasion" => bizNeedsOccasion2 s u
  | "bizNeedsDenomination" => bizNeedsDenomination2 s u
  | "bizNeedsDenominationCustom" => bizNeedsDenominationCustom2 s u
  | "bizNeedsBudget" => bizNeedsBudget2 s u
  | "bizNeedsDelivery" => bizNeedsDelivery2 s u
  | "bizDiscount" => bizDiscount2 s u
  | "bizQuote" => bizQuote2 s u
  | "bizPI" => bizPI2 s u
  | "bizPIUpload" => bizPIUpload2 s u
  | "bizPOValidated" => bizPOValidated2 s u
  | "bizIssued" => bizIssued2 s u
  | "bizFinal" => bizFinal2 s u
  | "bizFeedback" => bizFeedback2 s u
  | "askOccasion" => askOccasion2 s u
  | "askOccasionCustom" => askOccasionCustom2 s u
  | "askTemplate" => askTemplate2 s u
  | "askAmount" => askAmount2 s u
  | "askRecipientEmail" => askRecipientEmail2 s u
  | "askMessage" => askMessage2 s u
  | "confirm" => confirm2 s u tok
  | "completed" => completed2 s
  | _ => { session := s, reply := S0.fallbackReply }

/-- The redemption-check counter as read by the bizFinal branch
(state.data.biz.checksToday or-else 0). -/
def getChecks (s : Session2) : Nat :=
  match s.data.biz with
  | some b => b.checksToday
  | none => 0

/-- Is the session in the post-sale subsystem (bizFinal or bizFeedback). -/
def inPostSale (s : Session2) : Bool :=
  s.stage = "bizFinal" || s.stage = "bizFeedback"

/-- Does this turn perform a successful redemption check: at bizFinal, not a
greeting (which the global guard would intercept), the check command
matches, and the counter is still below five. -/
def checkSucceeds (s : Session2) (u : String) : Bool :=
  (s.stage = "bizFinal") && !greetingHit u &&
  (checkMatch u).isSome && decide (getChecks s < 5)

/-- Run a list of user messages through the second variant. -/
def runV2 (tok : String) : List String → Session2 → Session2
  | [], s => s
  | u :: us, s => runV2 tok us (chatV2 s u tok).session

/-- The number of successful redemption checks along a run. -/
def countSucc (tok : String) : List String → Session2 → Nat
  | [], _ => 0
  | u :: us, s =>
    (if checkSucceeds s u then 1 else 0) + countSucc tok us (chatV2 s u tok).session

end V2

namespace V3

open Js

/-! Embedding of the bizVerification and bizNeedsDelivery stage branches of
the third variant in src/unnamed/part_000 (the verification business flow,
1 percent discount for verified businesses).  Each branch of that handler is
self-contained: it reads the session record and the trimmed user message and
returns the updated record and reply; the two branches the claims are about
are embedded as standalone step functions. -/

/-- The business sub-record state.data.biz of the third variant (the fields
touched by the embedded branches). -/
structure Biz3 where
  checksToday : Nat := 0
  name : Option String := none
  company : Option String := none
  phone : Option String := none
  email : Option String := none
  gstin : Option String := none
  bankAccount : Option String := none
  ifsc : Option String := none
  requestId : Option String := none
  verified : Bool := false
  discountEligible : Bool := false
  discountPercent : Option Nat := none
  occasion : Option String := none
  deliveryEmail : Option String := none
  quantity : Option Nat := none
  denomination : Option Nat := none
  totalAmount : Option Nat := none
deriving DecidableEq

/-- The draft record of the third variant (business part). -/
structure Data3 where
  biz : Option Biz3 := none
deriving DecidableEq

/-- The numbers shown by the order summary: total (gross), discount, net. -/
structure Summary3 where
  total : Nat
  discount : Nat
  net : Nat
deriving DecidableEq

/-- The outcome of one embedded branch: next stage, updated draft, reply,
the kind of the ui hint when one is sent, and the structured content of the
order summary when one is shown. -/
structure Result3 where
  stage : String
  data : Data3
  reply : String
  ui : Option String := none
  summary : Option Summary3 := none
deriving DecidableEq

/-- The batch payload of the third variant, format
lead|fullName|company|phone|email|gstin|bankAccount|ifsc. -/
structure Lead3 where
  fullName : String
  company : String
  phone : String
  email : String
  gstin : String
  bankAccount : String
  ifsc : String
deriving DecidableEq

/-- Embedding of parseBatchLead of the third variant. -/
def parseBatchLead3 (message : String) : Option Lead3 :=
  if message = "" then none
  else if startsWithStr "lead|" (lowerStr message) then
    let parts := splitChar '|' message
    some { fullName := jsTrim (parts.getD 1 ""),
           company := jsTrim (parts.getD 2 ""),
           phone := jsTrim (parts.getD 3 ""),
           email := jsTrim (parts.getD 4 ""),
           gstin := jsTrim (parts.getD 5 ""),
           bankAccount := jsTrim (parts.getD 6 ""),
           ifsc := jsTrim (parts.getD 7 "") }
  else none

/-- The number of zero digits of the supplied GSTIN
((gstin.match of the global zero regex or-else empty).length). -/
def countZeros (s : String) : Nat :=
  (s.data.filter (fun c => c = '0')).length

def verifFailMsg : String :=
  "❌ Verification Failed: Account & GST must belong to the same company. Please retry."

def verifPassMsg : String :=
  "✅ Verification Complete! You qualify for 1% discount. Now let\x27s customize your gift card order."

def verifShapeMsg : String :=
  "Please provide valid Name, Company, Phone, Email, GSTIN, Bank Account, and IFSC."

def verifPhoneMsg : String := "Please provide a valid phone number."

/-- The bizVerification branch of the third variant: "proceed" re-shows the
form; a parsed batch is checked for presence of every field and for email
and phone shape; the lead is then stored (before the mock check) and the
GSTIN is rejected exactly when it contains four or more zero digits, in
which case the stage stays at bizVerification with the retry form; otherwise
the session is marked verified, discount-eligible at 1 percent, and advances
to bizNeedsOccasion.  tok is the random suffix of the generated request id. -/
def bizVerificationStep (d : Data3) (u tok : String) : Result3 :=
  let text := lowerStr u
  if text = "proceed" then
    { stage := "bizVerification", data := d, reply := "", ui := some "bizVerificationForm" }
  else match parseBatchLead3 u with
  | none =>
    { stage := "bizVerification", data := d, reply := "", ui := some "bizVerificationForm" }
  | some batch =>
    if batch.fullName = "" ∨ batch.company = "" ∨ isValidEmail batch.email = false ∨
       batch.phone = "" ∨ batch.gstin = "" ∨ batch.bankAccount = "" ∨ batch.ifsc = "" then
      { stage := "bizVerification", data := d, reply := verifShapeMsg,
        ui := some "bizVerificationForm" }
    else if phonePatternOk (stripPhone batch.phone) = false then
      { stage := "bizVerification", data := d, reply := verifPhoneMsg,
        ui := some "bizVerificationForm" }
    else match d.biz with
    | none =>
      -- the assignments to state.data.biz would raise on an absent biz
      -- record (unreachable along the flow); the catch-all replies
      { stage := "bizVerification", data := d, reply := errorReply }
    | some b =>
      let b2 : Biz3 :=
        { b with name := some batch.fullName, company := some batch.company,
                 phone := some (String.mk (stripPhone batch.phone)),
                 email := some batch.email, gstin := some batch.gstin,
                 bankAccount := some batch.bankAccount, ifsc := some batch.ifsc,
                 requestId := some ("GC" ++ tok) }
      if 4 ≤ countZeros batch.gstin then
        { stage := "bizVerification", data := { d with biz := some b2 },
          reply := verifFailMsg, ui := some "bizVerificationForm" }
      else
        let b3 : Biz3 := { b2 with verified := true, discountEligible := true,
                                   discountPercent := some 1 }
        { stage := "bizNeedsOccasion", data := { d with biz := some b3 },
          reply := verifPassMsg, ui := some "options" }

/-- Abbreviated rendering of generateOrderSummary (the legacy single-order
line; the orders-array rendering carries the same numbers per line). -/
def orderSummaryLine (b : Biz3) : String :=
  "• " ++ Nat.repr (b.quantity.getD 0) ++ " gift cards @ ₹" ++
  Nat.repr (b.denomination.getD 0) ++ " each = ₹" ++ Nat.repr (b.totalAmount.getD 0)

/-- The summary reply of the bizNeedsDelivery confirm path. -/
def summaryReply3 (b : Biz3) (discount net : Nat) : String :=
  "Here\x27s a quick summary of your request:\n\n" ++ orderSummaryLine b ++
  "\n• Business Discount (1%): –₹" ++ Nat.repr discount ++
  "\n• Net Payable: ₹" ++ Nat.repr net ++ "\n• Delivery: CSV to " ++
  showOpt b.deliveryEmail ++
  "\n• Platform Fee: Waived\n\n👉 Would you like us to generate a Proforma Invoice (PI)?"

def confirmEmailReply3 (b : Biz3) : String :=
  "📧 Confirm your delivery email: " ++ showOpt b.email ++ "\n👉 You can edit if needed."

/-- The bizNeedsDelivery branch of the third variant: "confirm" keeps the
lead email as delivery email and shows the order summary with the 1 percent
discount (Math.round(totalAmount * 0.01), embedded as exact half-up rounding
of totalAmount / 100) when the session is discount-eligible, else zero;
"edit" opens the email form; a valid email is stored and summarised the same
way; anything else re-prompts.  A totalAmount never stored would make the JS
compute NaN; that unreachable path is modelled by the Nat default zero. -/
def bizNeedsDeliveryStep (d : Data3) (u : String) : Result3 :=
  let text := lowerStr u
  match d.biz with
  | none =>
    -- every path of the branch reads state.data.biz; the catch-all replies
    { stage := "bizNeedsDelivery", data := d, reply := errorReply }
  | some b =>
    if text = "confirm" then
      let b2 : Biz3 := { b with deliveryEmail := b.email }
      let total := b2.totalAmount.getD 0
      let discount := if b2.discountEligible then (2 * total + 100) / 200 else 0
      let net := total - discount
      { stage := "bizOrderSummary", data := { d with biz := some b2 },
        reply := summaryReply3 b2 discount net, ui := some "options",
        summary := some { total := total, discount := discount, net := net } }
    else if text = "edit" then
      { stage := "bizNeedsDelivery", data := d,
        reply := "Please enter your delivery email:", ui := some "bizDeliveryForm" }
    else if isValidEmail u then
      let b2 : Biz3 := { b with deliveryEmail := some u }
      let total := b2.totalAmount.getD 0
      let discount := if b2.discountEligible then (2 * total + 100) / 200 else 0
      let net := total - discount
      { stage := "bizOrderSummary", data := { d with biz := some b2 },
        reply := summaryReply3 b2 discount net, ui := some "options",
        summary := some { total := total, discount := discount, net := net } }
    else
      { stage := "bizNeedsDelivery", data := d,
        reply := confirmEmailReply3 b, ui := some "options" }

end V3

/-- The discount the specification describes: round(gross times p percent),
half-up rounding of gross * p / 100. -/
def specDiscount (p gross : Nat) : Nat := (2 * gross * p + 100) / 200

/-- Run a list of user messages through the server.js handler, keeping the
session (every turn draws the same token pair; no step of the runs below
depends on them). -/
def runS0 (tok otok : String) : List String → S0.Session → S0.Session
  | [], s => s
  | u :: us, s => runS0 tok otok us (S0.chat s u tok otok).session

namespace Js

theorem data_append (s t : String) : (s ++ t).data = s.data ++ t.data := rfl

theorem isPrefixL_self_append (n rest : List Char) : isPrefixL n (n ++ rest) = true := by
  induction n with
  | nil => rfl
  | cons a as ih => simp [isPrefixL, ih]

theorem containsSub_self_append (n rest : List Char) :
    containsSub n (n ++ rest) = true := by
  cases n with
  | nil => cases rest <;> simp [containsSub, isPrefixL]
  | cons a as =>
    have h := isPrefixL_self_append (a :: as) rest
    simp only [List.cons_append] at h
    show (isPrefixL (a :: as) (a :: (as ++ rest)) || _) = true
    rw [h]
    rfl

theorem containsSub_of_middle (n pre rest : List Char) :
    containsSub n (pre ++ (n ++ rest)) = true := by
  induction pre with
  | nil => simpa using containsSub_self_append n rest
  | cons c cs ih => simp [containsSub, ih]

end Js

namespace S0

theorem chat_at_askOccasion (s : Session) (h : s.stage = "askOccasion") (u tok otok : String) :
    chat s u tok otok = askOccasionStep s u := by
  obtain ⟨st, d⟩ := s
  simp only at h
  subst h
  rfl

theorem chat_at_askTemplate (s : Session) (h : s.stage = "askTemplate") (u tok otok : String) :
    chat s u tok otok = askTemplateStep s u := by
  obtain ⟨st, d⟩ := s
  simp only at h
  subst h
  rfl

theorem chat_at_askAmount (s : Session) (h : s.stage = "askAmount") (u tok otok : String) :
    chat s u tok otok = askAmountStep s u := by
  obtain ⟨st, d⟩ := s
  simp only at h
  subst h
  rfl

theorem chat_at_askRecipientEmail (s : Session) (h : s.stage = "askRecipientEmail")
    (u tok otok : String) : chat s u tok otok = askRecipientEmailStep s u := by
  obtain ⟨st, d⟩ := s
  simp only at h
  subst h
  rfl

theorem chat_at_askMessage (s : Session) (h : s.stage = "askMessage") (u tok otok : String) :
    chat s u tok otok = askMessageStep s u := by
  obtain ⟨st, d⟩ := s
  simp only at h
  subst h
  rfl

theorem chat_at_confirm (s : Session) (h : s.stage = "confirm") (u tok otok : String) :
    chat s u tok otok = confirmStep s u tok otok := by
  obtain ⟨st, d⟩ := s
  simp only at h
  subst h
  rfl

theorem askOccasionStep_advance (s : Session) (o : String)
    (h1 : Js.lowerStr o ≠ "") (h2 : Js.lowerStr o ≠ "other") :
    ∃ d2, (askOccasionStep s o).session = { stage := "askTemplate", data := d2 } := by
  by_cases hk : Js.lowerStr o ∈ knownOccasions
  · refine ⟨{ s.data with occasion := some (fixThankyou (Js.lowerStr o)) }, ?_⟩
    simp [askOccasionStep, h1, h2, hk]
  · refine ⟨{ s.data with occasion := some o }, ?_⟩
    simp [askOccasionStep, h1, h2, hk]

theorem askTemplateStep_advance (s : Session) (t : String)
    (h : extractTemplateId (Js.lowerStr t) ≠ "") :
    ∃ d2, (askTemplateStep s t).session = { stage := "askAmount", data := d2 } :=
  ⟨{ s.data with templateId := some (extractTemplateId (Js.lowerStr t)) },
    by simp [askTemplateStep, h]⟩

theorem askAmountStep_advance (s : Session) (a : String)
    (h : 0 < (Js.normalizeAmount a).getD 0) :
    ∃ d2, (askAmountStep s a).session = { stage := "askRecipientEmail", data := d2 } := by
  rcases hv : Js.normalizeAmount a with _ | v
  · rw [hv] at h
    simp at h
  · rw [hv] at h
    simp only [Option.getD_some] at h
    refine ⟨{ s.data with amount := some v }, ?_⟩
    simp [askAmountStep, hv, Nat.not_le.mpr h]

theorem askRecipientEmailStep_advance (s : Session) (e : String)
    (h : Js.isValidEmail e = true) :
    ∃ d2, (askRecipientEmailStep s e).session = { stage := "askMessage", data := d2 } :=
  ⟨{ s.data with recipientEmail := some e }, by simp [askRecipientEmailStep, h]⟩

theorem askMessageStep_advance (s : Session) (m : String) :
    ∃ d2, (askMessageStep s m).session = { stage := "confirm", data := d2 } :=
  ⟨{ s.data with personalMessage := some m }, rfl⟩

theorem confirmStep_success (s : Session) (c tok otok : String)
    (h : Js.lowerStr c = "confirm") :
    (confirmStep s c tok otok).session.stage = "completed" ∧
    Js.containsSub Js.giftLinkPrefix.data (confirmStep s c tok otok).reply.data = true := by
  constructor
  · simp [confirmStep, h]
  · simp only [confirmStep, h, if_pos]
    have hdata :
        ("🎉 Success! Your gift card is ready.\nGift link: " ++ Js.giftLink tok ++
          ("\n\nDetails:\n" ++ receiptText (mkReceipt s.data tok otok))).data =
        ("🎉 Success! Your gift card is ready.\nGift link: ").data ++
          (Js.giftLinkPrefix.data ++
            (tok.data ++ ("\n\nDetails:\n" ++ receiptText (mkReceipt s.data tok otok)).data)) := by
      simp [Js.data_append, Js.giftLink, Js.giftLinkPrefix, List.append_assoc]
    rw [hdata]
    exact Js.containsSub_of_middle _ _ _

end S0

/-- C1 (counterexample): in src/backend/server.js the greeting is not a
global interrupt.  A fresh session greeted once sits at askOccasion with an
empty draft; greeting it again does not reset it to the welcome state and
does not clear the draft: the second "hi" is consumed as a custom occasion,
the stage advances to askTemplate and the draft records occasion "hi", so
the reset is neither global nor idempotent there. -/
theorem greeting_only_at_idle_in_server_js :
    (S0.chat { stage := "idle", data := {} } "hi" "t" "o").session =
      { stage := "askOccasion", data := {} } ∧
    (S0.chat { stage := "askOccasion", data := {} } "hi" "t" "o").session =
      { stage := "askTemplate", data := { occasion := some "hi" } } := by
  constructor
  · rfl
  · rfl

/-- C1 (amended): in the part_000 variants, whose /chat handler starts with
the global restart guard, a message containing a greeting word, seen from
any stage, resets the session to the awaitStart welcome state and clears the
draft to empty, and greeting the resulting state again reproduces exactly
the same outcome (idempotent reset).  In server.js the greeting is honoured
only at the idle stage. -/
theorem global_greeting_reset_idempotent_v2 (s : V2.Session2) (u v tok tok2 : String)
    (hu : Js.greetingHit u = true) (hv : Js.greetingHit v = true) :
    V2.chatV2 s u tok =
      { session := { stage := "awaitStart", data := {} }, reply := V2.welcome2 } ∧
    V2.chatV2 (V2.chatV2 s u tok).session v tok2 = V2.chatV2 s u tok := by
  have h1 : V2.chatV2 s u tok =
      { session := { stage := "awaitStart", data := {} }, reply := V2.welcome2 } := by
    simp [V2.chatV2, hu]
  refine ⟨h1, ?_⟩
  rw [h1]
  simp [V2.chatV2, hv]

/-- C1 (witness): the reset theorem applied to a mid-flow business session
and the concrete greetings "hi" and "Hello!". -/
theorem global_greeting_reset_idempotent_v2_witness :
    V2.chatV2 { stage := "bizQuote", data := { biz := some { checksToday := 3 } } } "hi" "t1" =
      { session := { stage := "awaitStart", data := {} }, reply := V2.welcome2 } ∧
    V2.chatV2 (V2.chatV2 { stage := "bizQuote", data := { biz := some { checksToday := 3 } } }
        "hi" "t1").session "Hello!" "t2" =
      V2.chatV2 { stage := "bizQuote", data := { biz := some { checksToday := 3 } } } "hi" "t1" :=
  global_greeting_reset_idempotent_v2
    { stage := "bizQuote", data := { biz := some { checksToday := 3 } } }
    "hi" "Hello!" "t1" "t2" (by decide) (by decide)

/-- C2: for inputs classified invalid at the amount stage (digit-free, or
parsing to a non-positive value), at the recipient-email stage (failing the
email pattern), and at the confirmation stage (neither confirm nor cancel),
the server.js handler leaves the session (stage and draft) unchanged and
returns exactly the re-prompt of that stage, never an error. -/
theorem invalid_inputs_keep_stage_and_reprompt (d : S0.GiftData) (u tok otok : String) :
    ((Js.normalizeAmount u = none ∨ Js.normalizeAmount u = some 0) →
      S0.chat { stage := "askAmount", data := d } u tok otok =
        { session := { stage := "askAmount", data := d }, reply := S0.amountReprompt }) ∧
    (Js.isValidEmail u = false →
      S0.chat { stage := "askRecipientEmail", data := d } u tok otok =
        { session := { stage := "askRecipientEmail", data := d }, reply := S0.emailReprompt }) ∧
    (Js.lowerStr u ≠ "confirm" → Js.lowerStr u ≠ "cancel" →
      S0.chat { stage := "confirm", data := d } u tok otok =
        { session := { stage := "confirm", data := d }, reply := S0.confirmReprompt }) := by
  refine ⟨?_, ?_, ?_⟩
  · intro h
    rcases h with h | h <;> simp [S0.chat, S0.askAmountStep, h]
  · intro h
    simp [S0.chat, S0.askRecipientEmailStep, h]
  · intro h1 h2
    simp [S0.chat, S0.confirmStep, h1, h2]

/-- C2 (witness): the re-prompt theorem applied at "cancel" (digit-free
amount), "not-an-email", and "maybe". -/
theorem invalid_inputs_keep_stage_and_reprompt_witness :
    S0.chat { stage := "askAmount", data := {} } "cancel" "t" "o" =
      { session := { stage := "askAmount", data := {} }, reply := S0.amountReprompt } ∧
    S0.chat { stage := "askRecipientEmail", data := {} } "not-an-email" "t" "o" =
      { session := { stage := "askRecipientEmail", data := {} }, reply := S0.emailReprompt } ∧
    S0.chat { stage := "confirm", data := {} } "maybe" "t" "o" =
      { session := { stage := "confirm", data := {} }, reply := S0.confirmReprompt } :=
  ⟨(invalid_inputs_keep_stage_and_reprompt {} "cancel" "t" "o").1 (Or.inl (by decide)),
   (invalid_inputs_keep_stage_and_reprompt {} "not-an-email" "t" "o").2.1 (by decide),
   (invalid_inputs_keep_stage_and_reprompt {} "maybe" "t" "o").2.2 (by decide) (by decide)⟩

/-- C4: at the askAmount stage the handler keeps exactly the digit characters
of the message and parses them; the input is rejected in place (stage and
draft unchanged, amount re-prompt) exactly when no digit remains or the
parsed value is zero, and otherwise the parsed value is stored in the draft
and the stage advances; concretely "0" and "cancel" are rejected without
advancing and "500" is accepted and stored. -/
theorem amount_parsing_strip_digits_characterisation (d : S0.GiftData) (u tok otok : String) :
    (S0.chat { stage := "askAmount", data := d } u tok otok =
      (if u.data.filter Char.isDigit = [] ∨ Js.digitsVal (u.data.filter Char.isDigit) = 0 then
        { session := { stage := "askAmount", data := d }, reply := S0.amountReprompt }
      else
        { session := { stage := "askRecipientEmail",
                       data := { d with amount := some (Js.digitsVal (u.data.filter Char.isDigit)) } },
          reply := S0.emailAsk })) ∧
    S0.chat { stage := "askAmount", data := d } "0" tok otok =
      { session := { stage := "askAmount", data := d }, reply := S0.amountReprompt } ∧
    S0.chat { stage := "askAmount", data := d } "cancel" tok otok =
      { session := { stage := "askAmount", data := d }, reply := S0.amountReprompt } ∧
    S0.chat { stage := "askAmount", data := d } "500" tok otok =
      { session := { stage := "askRecipientEmail", data := { d with amount := some 500 } },
        reply := S0.emailAsk } := by
  refine ⟨?_, rfl, rfl, rfl⟩
  show S0.askAmountStep { stage := "askAmount", data := d } u = _
  by_cases h0 : u = ""
  · subst h0
    simp [S0.askAmountStep, Js.normalizeAmount]
  · by_cases hd : u.data.filter Char.isDigit = []
    · simp [S0.askAmountStep, Js.normalizeAmount, h0, hd]
    · by_cases hz : Js.digitsVal (u.data.filter Char.isDigit) = 0
      · simp [S0.askAmountStep, Js.normalizeAmount, h0, hd, hz]
      · simp [S0.askAmountStep, Js.normalizeAmount, h0, hd, hz, Nat.pos_of_ne_zero hz]

/-- C9: at the askMessage stage every input is accepted: the message text is
stored verbatim in the draft (the literal "skip" and the empty string
included, with no length bound and no rejection branch) and the stage always
advances to the confirmation summary. -/
theorem message_stage_accepts_all_inputs (d : S0.GiftData) (u tok otok : String) :
    S0.chat { stage := "askMessage", data := d } u tok otok =
      { session := { stage := "confirm", data := { d with personalMessage := some u } },
        reply := S0.summaryReply { d with personalMessage := some u } } ∧
    (S0.chat { stage := "askMessage", data := d } "" tok otok).session.data.personalMessage =
      some "" ∧
    (S0.chat { stage := "askMessage", data := d } "skip" tok otok).session.data.personalMessage =
      some "skip" ∧
    (S0.chat { stage := "askMessage", data := d } "skip" tok otok).session.stage = "confirm" :=
  ⟨rfl, rfl, rfl, rfl⟩

/-- C5: from the confirmation stage, an input whose lowercased text is the
confirm keyword finalizes the order (stage completed, a receipt carrying the
generated mock gift link is produced, and the reply contains the link); the
cancel keyword resets the draft to empty and returns the stage to idle; any
other input leaves the stage and the draft unchanged and returns the
confirm-or-cancel re-prompt. -/
theorem confirm_stage_three_way_outcome (d : S0.GiftData) (u tok otok : String) :
    (Js.lowerStr u = "confirm" →
      (S0.chat { stage := "confirm", data := d } u tok otok).session.stage = "completed" ∧
      (S0.chat { stage := "confirm", data := d } u tok otok).receipt =
        some (S0.mkReceipt d tok otok) ∧
      (S0.mkReceipt d tok otok).giftLink = Js.giftLink tok ∧
      Js.containsSub Js.giftLinkPrefix.data
        (S0.chat { stage := "confirm", data := d } u tok otok).reply.data = true) ∧
    (Js.lowerStr u = "cancel" →
      S0.chat { stage := "confirm", data := d } u tok otok =
        { session := { stage := "idle", data := {} }, reply := S0.cancelledReply }) ∧
    (Js.lowerStr u ≠ "confirm" → Js.lowerStr u ≠ "cancel" →
      S0.chat { stage := "confirm", data := d } u tok otok =
        { session := { stage := "confirm", data := d }, reply := S0.confirmReprompt }) := by
  refine ⟨?_, ?_, ?_⟩
  · intro h
    refine ⟨?_, ?_, rfl, ?_⟩
    · simp [S0.chat, S0.confirmStep, h]
    · simp [S0.chat, S0.confirmStep, h]
    · exact (S0.confirmStep_success { stage := "confirm", data := d } u tok otok h).2
  · intro h
    simp [S0.chat, S0.confirmStep, h]
  · intro h1 h2
    simp [S0.chat, S0.confirmStep, h1, h2]

/-- C5 (witness): the three-way theorem applied at the inputs "CONFIRM"
(whose lowercasing is the confirm keyword), "cancel" and "maybe". -/
theorem confirm_stage_three_way_outcome_witness :
    ((S0.chat { stage := "confirm", data := {} } "CONFIRM" "tk" "ok").session.stage =
        "completed" ∧
      (S0.chat { stage := "confirm", data := {} } "CONFIRM" "tk" "ok").receipt =
        some (S0.mkReceipt {} "tk" "ok") ∧
      (S0.mkReceipt {} "tk" "ok").giftLink = Js.giftLink "tk" ∧
      Js.containsSub Js.giftLinkPrefix.data
        (S0.chat { stage := "confirm", data := {} } "CONFIRM" "tk" "ok").reply.data = true) ∧
    S0.chat { stage := "confirm", data := {} } "cancel" "tk" "ok" =
      { session := { stage := "idle", data := {} }, reply := S0.cancelledReply } ∧
    S0.chat { stage := "confirm", data := {} } "maybe" "tk" "ok" =
      { session := { stage := "confirm", data := {} }, reply := S0.confirmReprompt } :=
  ⟨(confirm_stage_three_way_outcome {} "CONFIRM" "tk" "ok").1 (by decide),
   (confirm_stage_three_way_outcome {} "cancel" "tk" "ok").2.1 (by decide),
   (confirm_stage_three_way_outcome {} "maybe" "tk" "ok").2.2 (by decide) (by decide)⟩

/-- C3: along the happy path of server.js (greeting, then a valid occasion,
a valid template selection, a positively-parsing amount, a valid recipient
email, any message), sending the confirm keyword yields a reply containing
the fixed mock gift-link prefix and moves the stage to completed. -/
theorem happy_path_confirm_yields_link_and_completed
    (o t a e m c tok otok : String)
    (ho1 : Js.lowerStr o ≠ "") (ho2 : Js.lowerStr o ≠ "other")
    (ht : S0.extractTemplateId (Js.lowerStr t) ≠ "")
    (ha : 0 < (Js.normalizeAmount a).getD 0)
    (he : Js.isValidEmail e = true)
    (hc : Js.lowerStr c = "confirm") :
    (S0.chat (runS0 tok otok ["hi", o, t, a, e, m] { stage := "idle", data := {} })
        c tok otok).session.stage = "completed" ∧
    Js.containsSub Js.giftLinkPrefix.data
      (S0.chat (runS0 tok otok ["hi", o, t, a, e, m] { stage := "idle", data := {} })
        c tok otok).reply.data = true := by
  obtain ⟨d2, h2⟩ := S0.askOccasionStep_advance { stage := "askOccasion", data := {} } o ho1 ho2
  obtain ⟨d3, h3⟩ := S0.askTemplateStep_advance { stage := "askTemplate", data := d2 } t ht
  obtain ⟨d4, h4⟩ := S0.askAmountStep_advance { stage := "askAmount", data := d3 } a ha
  obtain ⟨d5, h5⟩ :=
    S0.askRecipientEmailStep_advance { stage := "askRecipientEmail", data := d4 } e he
  obtain ⟨d6, h6⟩ := S0.askMessageStep_advance { stage := "askMessage", data := d5 } m
  have hrun : runS0 tok otok ["hi", o, t, a, e, m] { stage := "idle", data := {} } =
      { stage := "confirm", data := d6 } := by
    show runS0 tok otok [o, t, a, e, m]
      (S0.chat { stage := "idle", data := {} } "hi" tok otok).session = _
    have e1 : (S0.chat { stage := "idle", data := {} } "hi" tok otok).session =
        { stage := "askOccasion", data := {} } := rfl
    rw [e1]
    show runS0 tok otok [t, a, e, m]
      (S0.chat { stage := "askOccasion", data := {} } o tok otok).session = _
    rw [S0.chat_at_askOccasion _ rfl, h2]
    show runS0 tok otok [a, e, m]
      (S0.chat { stage := "askTemplate", data := d2 } t tok otok).session = _
    rw [S0.chat_at_askTemplate _ rfl, h3]
    show runS0 tok otok [e, m]
      (S0.chat { stage := "askAmount", data := d3 } a tok otok).session = _
    rw [S0.chat_at_askAmount _ rfl, h4]
    show runS0 tok otok [m]
      (S0.chat { stage := "askRecipientEmail", data := d4 } e tok otok).session = _
    rw [S0.chat_at_askRecipientEmail _ rfl, h5]
    show runS0 tok otok []
      (S0.chat { stage := "askMessage", data := d5 } m tok otok).session = _
    rw [S0.chat_at_askMessage _ rfl, h6]
    rfl
  rw [hrun, S0.chat_at_confirm _ rfl]
  exact S0.confirmStep_success { stage := "confirm", data := d6 } c tok otok hc

/-- C3 (witness): the happy-path theorem applied to the concrete run
birthday, t1, 1000, a valid email, skip, confirm. -/
theorem happy_path_confirm_yields_link_and_completed_witness :
    (S0.chat (runS0 "LTOK" "OTOK" ["hi", "birthday", "t1", "1000", "a@b.co", "skip"]
        { stage := "idle", data := {} }) "confirm" "LTOK" "OTOK").session.stage = "completed" ∧
    Js.containsSub Js.giftLinkPrefix.data
      (S0.chat (runS0 "LTOK" "OTOK" ["hi", "birthday", "t1", "1000", "a@b.co", "skip"]
        { stage := "idle", data := {} }) "confirm" "LTOK" "OTOK").reply.data = true :=
  happy_path_confirm_yields_link_and_completed "birthday" "t1" "1000" "a@b.co" "skip"
    "confirm" "LTOK" "OTOK" (by decide) (by decide) (by decide) (by decide) (by decide)
    (by decide)

/-- C6: over all session states (reachable ones included) and all inputs,
the server.js handler produces a receipt (with its generated gift link) on a
turn exactly when the session is at the confirmation stage and the
lowercased input is the confirm keyword; no other stage-input pair produces
one. -/
theorem receipt_only_from_confirm_stage_confirm_input (s : S0.Session) (u tok otok : String) :
    (S0.chat s u tok otok).receipt.isSome = true ↔
      (s.stage = "confirm" ∧ Js.lowerStr u = "confirm") := by
  obtain ⟨st, d⟩ := s
  show (S0.chat ⟨st, d⟩ u tok otok).receipt.isSome = true ↔ _
  unfold S0.chat
  split <;>
    simp_all [S0.idleStep, S0.askOccasionStep, S0.askOccasionCustomStep, S0.askTemplateStep,
      S0.askAmountStep, S0.askRecipientEmailStep, S0.askMessageStep, S0.completedStep,
      S0.confirmStep] <;>
    (repeat' split) <;> simp_all

/-- C7: in the verification step of the third variant, a batch whose fields
are all present, whose email matches the email pattern and whose stripped
phone matches the phone pattern is rejected (staying at bizVerification with
the retry form and the failure reply) exactly when the supplied GSTIN
contains four or more zero digits; otherwise the session is marked verified
and eligible for the one-percent discount and advances to occasion
selection. -/
theorem gstin_zero_count_verification_rule
    (d : V3.Data3) (b : V3.Biz3) (u tok : String) (batch : V3.Lead3)
    (hb : d.biz = some b)
    (hp : V3.parseBatchLead3 u = some batch)
    (h1 : batch.fullName ≠ "") (h2 : batch.company ≠ "")
    (h3 : Js.isValidEmail batch.email = true)
    (h4 : batch.phone ≠ "") (h5 : batch.gstin ≠ "")
    (h6 : batch.bankAccount ≠ "") (h7 : batch.ifsc ≠ "")
    (h8 : Js.phonePatternOk (Js.stripPhone batch.phone) = true) :
    ((V3.bizVerificationStep d u tok).stage = "bizVerification" ↔
      4 ≤ V3.countZeros batch.gstin) ∧
    (4 ≤ V3.countZeros batch.gstin →
      (V3.bizVerificationStep d u tok).reply = V3.verifFailMsg ∧
      (V3.bizVerificationStep d u tok).ui = some "bizVerificationForm") ∧
    (V3.countZeros batch.gstin < 4 →
      (V3.bizVerificationStep d u tok).stage = "bizNeedsOccasion" ∧
      ∃ b3 : V3.Biz3, (V3.bizVerificationStep d u tok).data.biz = some b3 ∧
        b3.verified = true ∧ b3.discountEligible = true ∧ b3.discountPercent = some 1) := by
  have hne : Js.lowerStr u ≠ "proceed" := by
    intro hcontra
    rw [V3.parseBatchLead3] at hp
    by_cases h0 : u = ""
    · simp [h0] at hp
    · rw [if_neg h0] at hp
      by_cases hsw : Js.startsWithStr "lead|" (Js.lowerStr u) = true
      · rw [hcontra] at hsw
        exact absurd hsw (by decide)
      · rw [if_neg (by simpa using hsw)] at hp
        exact Option.noConfusion hp
  by_cases hz : 4 ≤ V3.countZeros batch.gstin
  · refine ⟨?_, ?_, ?_⟩
    · simp [V3.bizVerificationStep, hne, hp, hb, h1, h2, h3, h4, h5, h6, h7, h8, hz]
    · intro _
      constructor <;>
        simp [V3.bizVerificationStep, hne, hp, hb, h1, h2, h3, h4, h5, h6, h7, h8, hz]
    · intro hlt
      exact absurd hz (Nat.not_le.mpr hlt)
  · refine ⟨?_, ?_, ?_⟩
    · simp [V3.bizVerificationStep, hne, hp, hb, h1, h2, h3, h4, h5, h6, h7, h8, hz]
    · intro hge
      exact absurd hge hz
    · intro _
      constructor
      · simp [V3.bizVerificationStep, hne, hp, hb, h1, h2, h3, h4, h5, h6, h7, h8, hz]
      · have hstep : (V3.bizVerificationStep d u tok).data.biz =
            some { b with
                    name := some batch.fullName,
                    company := some batch.company,
                    phone := some (String.mk (Js.stripPhone batch.phone)),
                    email := some batch.email,
                    gstin := some batch.gstin,
                    bankAccount := some batch.bankAccount,
                    ifsc := some batch.ifsc,
                    requestId := some ("GC" ++ tok),
                    verified := true,
                    discountEligible := true,
                    discountPercent := some 1 } := by
          simp [V3.bizVerificationStep, hne, hp, hb, h1, h2, h3, h4, h5, h6, h7, h8, hz]
        exact ⟨_, hstep, rfl, rfl, rfl⟩

/-- C7 (witness): the verification rule applied to a concrete batch with a
zero-free GSTIN. -/
theorem gstin_zero_count_verification_rule_witness :
    ((V3.bizVerificationStep { biz := some {} }
        "lead|Jane Doe|Acme|9999999999|jane@acme.co|29ABCDE1234F1Z5|12345|HDFC0001"
        "RID").stage = "bizVerification" ↔ 4 ≤ V3.countZeros "29ABCDE1234F1Z5") ∧
    (4 ≤ V3.countZeros "29ABCDE1234F1Z5" →
      (V3.bizVerificationStep { biz := some {} }
        "lead|Jane Doe|Acme|9999999999|jane@acme.co|29ABCDE1234F1Z5|12345|HDFC0001"
        "RID").reply = V3.verifFailMsg ∧
      (V3.bizVerificationStep { biz := some {} }
        "lead|Jane Doe|Acme|9999999999|jane@acme.co|29ABCDE1234F1Z5|12345|HDFC0001"
        "RID").ui = some "bizVerificationForm") ∧
    (V3.countZeros "29ABCDE1234F1Z5" < 4 →
      (V3.bizVerificationStep { biz := some {} }
        "lead|Jane Doe|Acme|9999999999|jane@acme.co|29ABCDE1234F1Z5|12345|HDFC0001"
        "RID").stage = "bizNeedsOccasion" ∧
      ∃ b3 : V3.Biz3, (V3.bizVerificationStep { biz := some {} }
        "lead|Jane Doe|Acme|9999999999|jane@acme.co|29ABCDE1234F1Z5|12345|HDFC0001"
        "RID").data.biz = some b3 ∧
        b3.verified = true ∧ b3.discountEligible = true ∧ b3.discountPercent = some 1) :=
  gstin_zero_count_verification_rule { biz := some {} } {}
    "lead|Jane Doe|Acme|9999999999|jane@acme.co|29ABCDE1234F1Z5|12345|HDFC0001" "RID"
    { fullName := "Jane Doe", company := "Acme", phone := "9999999999",
      email := "jane@acme.co", gstin := "29ABCDE1234F1Z5", bankAccount := "12345",
      ifsc := "HDFC0001" }
    rfl (by decide) (by decide) (by decide) (by decide) (by decide) (by decide)
    (by decide) (by decide) (by decide)

theorem specDiscount_two_eq (g : Nat) : specDiscount 2 g = (2 * g + 50) / 100 := by
  have h1 : 2 * g * 2 + 100 = 2 * (2 * g + 50) := by ring
  have h2 : (200 : Nat) = 2 * 100 := by norm_num
  rw [specDiscount, h1, h2, Nat.mul_div_mul_left _ _ (by norm_num)]

theorem specDiscount_one_eq (g : Nat) : specDiscount 1 g = (2 * g + 100) / 200 := by
  rw [specDiscount]
  ring_nf

theorem codeRoundTwo_le (g : Nat) : (2 * g + 50) / 100 ≤ g := by omega

theorem codeRoundTwo_sub_add (g : Nat) :
    (g - (2 * g + 50) / 100) + (2 * g + 50) / 100 = g := by omega

/-- C8: the business discount is round(gross times the flat rate) and the
net payable is exactly gross minus discount.  In the second variant the
bizDiscount branch stores a quotation with gross = denomination times card
count (count = max 1 of budget divided by denomination) and discount =
round(gross times two percent); in the third variant the confirmed delivery
summary of a discount-eligible session quotes discount = round(total times
one percent) and net = total minus discount, exactly in both variants. -/
theorem business_discount_round_and_net
    (s : V2.Session2) (b : V2.Biz2) (dn bu : Nat) (u tok : String)
    (hstage : s.stage = "bizDiscount") (hg : Js.greetingHit u = false)
    (hb : s.data.biz = some b) (hdn : b.denomination = some dn) (hbu : b.budget = some bu)
    (hdnpos : 0 < dn)
    (d3 : V3.Data3) (b3 : V3.Biz3) (T : Nat)
    (hb3 : d3.biz = some b3) (hT : b3.totalAmount = some T) (he : b3.discountEligible = true) :
    (∃ q : V2.Quote2,
      ((V2.chatV2 s u tok).session).data.biz = some { b with quote := some q } ∧
      ((V2.chatV2 s u tok).session).stage = "bizQuote" ∧
      q.denom = dn ∧ q.count = max 1 (bu / dn) ∧ q.gross = q.denom * q.count ∧
      q.discount = specDiscount 2 q.gross ∧ q.discount ≤ q.gross ∧
      q.net = q.gross - q.discount ∧ q.net + q.discount = q.gross) ∧
    ((V3.bizNeedsDeliveryStep d3 "confirm").summary =
      some { total := T, discount := specDiscount 1 T, net := T - specDiscount 1 T } ∧
      (V3.bizNeedsDeliveryStep d3 "confirm").stage = "bizOrderSummary" ∧
      specDiscount 1 T ≤ T ∧ (T - specDiscount 1 T) + specDiscount 1 T = T) := by
  constructor
  · obtain ⟨st, d⟩ := s
    simp only at hstage
    subst hstage
    have hb2 : d.biz = some b := hb
    have hred : V2.chatV2 { stage := "bizDiscount", data := d } u tok =
        V2.bizDiscount2 { stage := "bizDiscount", data := d } u := by
      simp [V2.chatV2, hg]
    refine ⟨{ count := max 1 (bu / dn), denom := dn, gross := dn * max 1 (bu / dn),
              discount := (2 * (dn * max 1 (bu / dn)) + 50) / 100,
              net := dn * max 1 (bu / dn) - (2 * (dn * max 1 (bu / dn)) + 50) / 100 },
            ?_, ?_, rfl, rfl, rfl, (specDiscount_two_eq _).symm, ?_, rfl, ?_⟩
    · rw [hred]
      simp [V2.bizDiscount2, hb2, hdn, hbu]
    · rw [hred]
      simp [V2.bizDiscount2, hb2]
    · exact codeRoundTwo_le (dn * max 1 (bu / dn))
    · exact codeRoundTwo_sub_add (dn * max 1 (bu / dn))
  · have hcf : Js.lowerStr "confirm" = "confirm" := by decide
    refine ⟨?_, ?_, ?_, ?_⟩
    · simp [V3.bizNeedsDeliveryStep, hcf, hb3, hT, he, specDiscount_one_eq]
    · simp [V3.bizNeedsDeliveryStep, hcf, hb3]
    · rw [specDiscount_one_eq]
      omega
    · rw [specDiscount_one_eq]
      omega

/-- C8 (witness): the discount theorem applied to the concrete quotation
with denomination 500 and budget 5200 (count 10, gross 5000, discount 100,
net 4900) and the concrete summary with total 15050 (discount 151, net
14899). -/
theorem business_discount_round_and_net_witness :
    (∃ q : V2.Quote2,
      ((V2.chatV2 { stage := "bizDiscount", data := { biz := some { denomination := some 500, budget := some 5200 } } } "x" "T").session).data.biz =
        some { ({ denomination := some 500, budget := some 5200 } : V2.Biz2) with quote := some q } ∧
      ((V2.chatV2 { stage := "bizDiscount", data := { biz := some { denomination := some 500, budget := some 5200 } } } "x" "T").session).stage = "bizQuote" ∧
      q.denom = 500 ∧ q.count = max 1 (5200 / 500) ∧ q.gross = q.denom * q.count ∧
      q.discount = specDiscount 2 q.gross ∧ q.discount ≤ q.gross ∧
      q.net = q.gross - q.discount ∧ q.net + q.discount = q.gross) ∧
    ((V3.bizNeedsDeliveryStep { biz := some { email := some "jane@acme.co", discountEligible := true, totalAmount := some 15050 } } "confirm").summary =
      some { total := 15050, discount := specDiscount 1 15050, net := 15050 - specDiscount 1 15050 } ∧
      (V3.bizNeedsDeliveryStep { biz := some { email := some "jane@acme.co", discountEligible := true, totalAmount := some 15050 } } "confirm").stage = "bizOrderSummary" ∧
      specDiscount 1 15050 ≤ 15050 ∧
      (15050 - specDiscount 1 15050) + specDiscount 1 15050 = 15050) :=
  business_discount_round_and_net
    { stage := "bizDiscount", data := { biz := some { denomination := some 500, budget := some 5200 } } }
    { denomination := some 500, budget := some 5200 } 500 5200 "x" "T"
    rfl (by decide) rfl rfl rfl (by decide)
    { biz := some { email := some "jane@acme.co", discountEligible := true, totalAmount := some 15050 } }
    { email := some "jane@acme.co", discountEligible := true, totalAmount := some 15050 }
    15050 rfl rfl rfl

theorem postSale_step (s : V2.Session2) (u tok : String)
    (hin : V2.inPostSale s = true) (hb : s.data.biz ≠ none)
    (hg : Js.greetingHit u = false) :
    V2.inPostSale ((V2.chatV2 s u tok).session) = true ∧
    ((V2.chatV2 s u tok).session).data.biz ≠ none ∧
    V2.getChecks ((V2.chatV2 s u tok).session) =
      V2.getChecks s + (if V2.checkSucceeds s u then 1 else 0) := by
  obtain ⟨st, d⟩ := s
  have hb' : d.biz ≠ none := hb
  have hin' : st = "bizFinal" ∨ st = "bizFeedback" := by
    simpa [V2.inPostSale] using hin
  cases hbb : d.biz with
  | none => exact absurd hbb hb'
  | some b =>
    rcases hin' with hst | hst
    · subst hst
      have hred : V2.chatV2 { stage := "bizFinal", data := d } u tok =
          V2.bizFinal2 { stage := "bizFinal", data := d } u := by
        simp [V2.chatV2, hg]
      rw [hred]
      cases hcm : Js.checkMatch u with
      | some id =>
        by_cases h5 : 5 ≤ b.checksToday
        · simp [V2.bizFinal2, hbb, hcm, h5, V2.inPostSale, V2.getChecks,
            V2.checkSucceeds, hg, Nat.not_lt.mpr h5]
        · simp [V2.bizFinal2, hbb, hcm, h5, V2.inPostSale, V2.getChecks,
            V2.checkSucceeds, hg, Nat.lt_of_not_le h5]
      | none =>
        have hsucc : V2.checkSucceeds { stage := "bizFinal", data := d } u = false := by
          simp [V2.checkSucceeds, hcm]
        simp only [V2.bizFinal2, hbb, hcm, hsucc, if_neg]
        repeat' split
        all_goals
          simp_all [V2.inPostSale, V2.getChecks, hbb]
    · subst hst
      have hred : V2.chatV2 { stage := "bizFeedback", data := d } u tok =
          V2.bizFeedback2 { stage := "bizFeedback", data := d } u := by
        simp [V2.chatV2, hg]
      rw [hred]
      have hsucc : V2.checkSucceeds { stage := "bizFeedback", data := d } u = false := by
        simp [V2.checkSucceeds]
      simp only [V2.bizFeedback2, hbb, hsucc, if_neg]
      repeat' split
      all_goals
        simp_all [V2.inPostSale, V2.getChecks, hbb]

theorem postSale_run (tok : String) (us : List String) :
    ∀ s : V2.Session2, V2.inPostSale s = true → s.data.biz ≠ none →
    (∀ w ∈ us, Js.greetingHit w = false) →
    V2.inPostSale (V2.runV2 tok us s) = true ∧
    (V2.runV2 tok us s).data.biz ≠ none ∧
    V2.getChecks (V2.runV2 tok us s) = V2.getChecks s + V2.countSucc tok us s ∧
    V2.getChecks (V2.runV2 tok us s) ≤ max (V2.getChecks s) 5 := by
  induction us with
  | nil =>
    intro s hin hb _
    exact ⟨hin, hb, by simp [V2.runV2, V2.countSucc], by
      simp only [V2.runV2]
      exact le_max_left _ _⟩
  | cons u us ih =>
    intro s hin hb hgs
    have hgu : Js.greetingHit u = false := hgs u (by simp)
    have hrest : ∀ w ∈ us, Js.greetingHit w = false := fun w hw => hgs w (by simp [hw])
    obtain ⟨hin2, hb2, hcount⟩ := postSale_step s u tok hin hb hgu
    obtain ⟨rin, rb, rcount, rle⟩ := ih (V2.chatV2 s u tok).session hin2 hb2 hrest
    refine ⟨rin, rb, ?_, ?_⟩
    · show V2.getChecks (V2.runV2 tok us (V2.chatV2 s u tok).session) = _
      rw [rcount, hcount]
      show _ = V2.getChecks s +
        ((if V2.checkSucceeds s u then 1 else 0) +
          V2.countSucc tok us (V2.chatV2 s u tok).session)
      ring
    · show V2.getChecks (V2.runV2 tok us (V2.chatV2 s u tok).session) ≤ _
      refine le_trans rle ?_
      rw [hcount]
      by_cases hs : V2.checkSucceeds s u
      · have hlt : V2.getChecks s < 5 := by
          have h := hs
          simp only [V2.checkSucceeds, Bool.and_eq_true, decide_eq_true_eq] at h
          exact h.2
        rw [if_pos hs]
        exact max_le (le_trans (Nat.succ_le_of_lt hlt) (le_max_right _ _))
          (le_max_right _ _)
      · rw [if_neg hs]
        simp

/-- C10 (counterexample): the redemption-check counter is not a per-session
monotone quantity.  At the post-sale stage with the counter at its cap of
five, a greeting triggers the global restart guard, which clears the whole
draft including the counter (it reads as 0 afterwards), so the five-check
bound holds per business journey, not per session. -/
theorem redemption_counter_cleared_by_greeting :
    V2.getChecks { stage := "bizFinal", data := { biz := some { checksToday := 5 } } } = 5 ∧
    V2.getChecks ((V2.chatV2 { stage := "bizFinal", data := { biz := some { checksToday := 5 } } } "hi" "T").session) = 0 ∧
    ((V2.chatV2 { stage := "bizFinal", data := { biz := some { checksToday := 5 } } } "hi" "T").session).data.biz = none ∧
    ((V2.chatV2 { stage := "bizFinal", data := { biz := some { checksToday := 5 } } } "hi" "T").session).stage = "awaitStart" := by
  refine ⟨rfl, ?_, ?_, ?_⟩ <;> decide

/-- C10 (amended): while the session stays in the post-sale subsystem (the
bizFinal and bizFeedback stages, i.e. no greeting restart occurs), at most
five redemption checks succeed: a check at bizFinal with the counter already
at five returns the daily-limit reply with the session (stage, draft and
counter) unchanged; a check below five increments the counter and stays at
bizFinal; along any greeting-free run from bizFinal the counter equals its
start plus the number of successful checks, never exceeds max(start, 5), and
from a fresh counter the number of successful checks is at most five. -/
theorem redemption_check_limit_per_journey
    (s : V2.Session2) (b : V2.Biz2) (u tok : String) (us : List String)
    (hstage : s.stage = "bizFinal") (hb : s.data.biz = some b)
    (hg : Js.greetingHit u = false) (hc : (Js.checkMatch u).isSome = true)
    (hgs : ∀ w ∈ us, Js.greetingHit w = false) :
    (5 ≤ b.checksToday →
      V2.chatV2 s u tok = { session := s, reply := V2.limitReply2 }) ∧
    (b.checksToday < 5 →
      V2.getChecks ((V2.chatV2 s u tok).session) = b.checksToday + 1 ∧
      ((V2.chatV2 s u tok).session).stage = "bizFinal") ∧
    (V2.getChecks (V2.runV2 tok us s) = V2.getChecks s + V2.countSucc tok us s ∧
      V2.getChecks (V2.runV2 tok us s) ≤ max (V2.getChecks s) 5) ∧
    (b.checksToday = 0 → V2.countSucc tok us s ≤ 5) := by
  obtain ⟨id, hid⟩ := Option.isSome_iff_exists.mp hc
  have hin : V2.inPostSale s = true := by
    simp [V2.inPostSale, hstage]
  have hbne : s.data.biz ≠ none := by
    rw [hb]
    exact Option.noConfusion
  have hrun := postSale_run tok us s hin hbne hgs
  obtain ⟨st, d⟩ := s
  simp only at hstage
  subst hstage
  have hb2 : d.biz = some b := hb
  have hred : V2.chatV2 { stage := "bizFinal", data := d } u tok =
      V2.bizFinal2 { stage := "bizFinal", data := d } u := by
    simp [V2.chatV2, hg]
  have hchk : V2.getChecks { stage := "bizFinal", data := d } = b.checksToday := by
    simp [V2.getChecks, hb2]
  refine ⟨?_, ?_, ⟨hrun.2.2.1, hrun.2.2.2⟩, ?_⟩
  · intro h5
    rw [hred]
    simp [V2.bizFinal2, hb2, hid, h5]
  · intro h5
    rw [hred]
    constructor
    · simp [V2.bizFinal2, hb2, hid, Nat.not_le.mpr h5, V2.getChecks]
    · simp [V2.bizFinal2, hb2, hid, Nat.not_le.mpr h5]
  · intro h0
    have h1 := hrun.2.2.1
    have h2 := hrun.2.2.2
    rw [hchk, h0] at h1 h2
    omega

/-- C10 (witness): the per-journey limit theorem applied to a session at
bizFinal with a fresh counter, the check input "check gc X1", and a
greeting-free run of six checks, of which exactly five succeed. -/
theorem redemption_check_limit_per_journey_witness :
    (5 ≤ (0 : Nat) →
      V2.chatV2 { stage := "bizFinal", data := { biz := some {} } } "check gc X1" "T" =
        { session := { stage := "bizFinal", data := { biz := some {} } },
          reply := V2.limitReply2 }) ∧
    ((0 : Nat) < 5 →
      V2.getChecks ((V2.chatV2 { stage := "bizFinal", data := { biz := some {} } }
        "check gc X1" "T").session) = 0 + 1 ∧
      ((V2.chatV2 { stage := "bizFinal", data := { biz := some {} } }
        "check gc X1" "T").session).stage = "bizFinal") ∧
    (V2.getChecks (V2.runV2 "T"
        ["check gc a1", "check gc a2", "check gc a3", "check gc a4", "check gc a5", "check gc a6"]
        { stage := "bizFinal", data := { biz := some {} } }) =
      V2.getChecks { stage := "bizFinal", data := { biz := some {} } } +
        V2.countSucc "T"
          ["check gc a1", "check gc a2", "check gc a3", "check gc a4", "check gc a5", "check gc a6"]
          { stage := "bizFinal", data := { biz := some {} } } ∧
      V2.getChecks (V2.runV2 "T"
        ["check gc a1", "check gc a2", "check gc a3", "check gc a4", "check gc a5", "check gc a6"]
        { stage := "bizFinal", data := { biz := some {} } }) ≤
      max (V2.getChecks { stage := "bizFinal", data := { biz := some {} } }) 5) ∧
    ((0 : Nat) = 0 →
      V2.countSucc "T"
        ["check gc a1", "check gc a2", "check gc a3", "check gc a4", "check gc a5", "check gc a6"]
        { stage := "bizFinal", data := { biz := some {} } } ≤ 5) :=
  redemption_check_limit_per_journey
    { stage := "bizFinal", data := { biz := some {} } } {} "check gc X1" "T"
    ["check gc a1", "check gc a2", "check gc a3", "check gc a4", "check gc a5", "check gc a6"]
    rfl rfl (by decide) (by decide) (by decide)
